import Mathlib

/-!
# Verification of the chimedb.core connection broker and transaction scope

A shallow embedding, in Lean 4, of the parts of `chimedb.core` (files
`connectdb.py`, `context.py`, `orm.py`, `exceptions.py`) that the spec's
claims are about:

* the exception taxonomy (`exceptions.py`), extended with the Python /
  peewee exceptions the source lets escape (`KeyError`, `ValueError`,
  `yaml.YAMLError`, `OSError`, peewee's `OperationalError` and
  `Model.DoesNotExist`, and `SystemExit`);
* the transaction-scope decorator `atomic` (`context.py`), over an explicit
  model of peewee's `Database.atomic()` context manager;
* the connector hierarchy, configuration resolution and the `connect` /
  `close` entry points (`connectdb.py`);
* the `name_table` query cache (`orm.py`).

State (Python thread-locals, class-level dictionaries, the mutable global
`_TEST_ENABLE`) is passed explicitly.  External effects (the filesystem,
environment variables, the network and the `chimedb.config` module) are
inputs; the outcome of `get_connection` on a connector is an oracle
parameter.  Python exceptions are `Except PyErr`.
-/

/-- The exceptions relevant to chimedb.core: the chimedb taxonomy from
`exceptions.py` plus the Python / library exceptions that the source code
raises or lets propagate. -/
inductive PyErr where
  /-- `chimedb.core.exceptions.NoRouteToDatabase` (subclass of `ConnectionError`). -/
  | noRouteToDatabase (msg : String)
  /-- `chimedb.core.exceptions.ConnectionError`. -/
  | connectionError (msg : String)
  /-- `chimedb.core.exceptions.NotFoundError`. -/
  | notFoundError (msg : String)
  /-- peewee's `Model.DoesNotExist`, raised by `Model.get` on zero rows. -/
  | doesNotExist
  /-- peewee's `OperationalError`. -/
  | operationalError (msg : String)
  /-- Python's `ValueError`. -/
  | valueError (msg : String)
  /-- Python's `KeyError`, carrying the missing key. -/
  | keyError (key : String)
  /-- `yaml.YAMLError`, raised by `yaml.safe_load` on unparseable content. -/
  | yamlError
  /-- Python's `OSError` (heir of `EnvironmentError`). -/
  | osError (msg : String)
  deriving Repr, DecidableEq

/-- Truthiness of a `SystemExit.code`: Python's `if e.code:` is false for
`None` and `0`, true for any other integer code. -/
def truthyCode (c : Option Int) : Bool :=
  match c with
  | none => false
  | some n => n != 0

-- =====================================================================
-- Transaction scope (`context.py`, `atomic` / `atomic_wrapper`)
-- =====================================================================

/-- How one invocation of the wrapped `_func` terminates. -/
inductive BodyOutcome (ρ : Type) where
  /-- `_func` returns normally with a value. -/
  | ret (v : ρ)
  /-- `_func` raises `SystemExit` with the given `code` (`none` models
  Python's `sys.exit()` with code `None`). -/
  | sysExit (code : Option Int)
  /-- `_func` raises an ordinary exception. -/
  | err (e : PyErr)

/-- peewee transaction state over a database state `σ`: the last committed
state and the pending (in-transaction) state. -/
structure Txn (σ : Type) where
  committed : σ
  pending : σ

/-- Opening a transaction (`proxy.atomic().__enter__`): the pending state
starts from the committed state. -/
def txnBegin {σ : Type} (db : σ) : Txn σ :=
  ⟨db, db⟩

/-- peewee `transaction.rollback()`: discard the pending state and restart
the transaction from the committed state. -/
def txnRollback {σ : Type} (t : Txn σ) : Txn σ :=
  ⟨t.committed, t.committed⟩

/-- peewee transaction commit (performed by `atomic().__exit__` when the
block is left without an exception): the pending state becomes committed. -/
def txnCommit {σ : Type} (t : Txn σ) : σ :=
  t.pending

/-- Observable transaction events, in the order they happen, so that the
relative order of commit/rollback and the re-raise of a saved `SystemExit`
can be stated. -/
inductive TxEvent where
  | txBegin
  | txCommit
  | txRollback
  /-- the `raise saved_exit` at the end of `atomic_wrapper`. -/
  | reraise
  deriving Repr, DecidableEq

/-- How a call of the decorated function terminates, as seen by its caller. -/
inductive AtomicResult (ρ : Type) where
  /-- normal return of the body's value. -/
  | ret (v : ρ)
  /-- an ordinary exception propagates. -/
  | raised (e : PyErr)
  /-- `SystemExit code` propagates (re-raised by `atomic_wrapper`). -/
  | exited (code : Option Int)

/-- The `atomic_wrapper` closure of `context.py` (lines 82-101).

The body is given as a state transformer on the pending transaction state
together with its outcome.  `connect(read_write=read_write)` has no effect
on the transaction state and is elided here.  The translation of the
source's control flow:

* `with proxy.atomic() as transaction:` opens the transaction and, on
  leaving the block, commits if no exception is propagating and rolls back
  otherwise;
* a `SystemExit` from `_func` is caught inside the block: for a truthy
  code `transaction.rollback()` runs; the exception object is saved and
  the block is then left *without* an exception (so the `__exit__` commit
  runs), and `raise saved_exit` happens only after the block has closed;
* every other exception propagates out of the block (rollback in
  `__exit__`). -/
def atomic_wrapper {σ ρ : Type} (body : σ → σ × BodyOutcome ρ) (db : σ) :
    AtomicResult ρ × σ × List TxEvent :=
  let t0 := txnBegin db
  let r := body t0.pending
  let t1 : Txn σ := { t0 with pending := r.1 }
  match r.2 with
  | BodyOutcome.ret v =>
      -- normal return: with-block exits cleanly, `__exit__` commits
      (AtomicResult.ret v, txnCommit t1, [TxEvent.txBegin, TxEvent.txCommit])
  | BodyOutcome.err e =>
      -- uncaught exception: `__exit__` rolls back and the exception propagates
      (AtomicResult.raised e, (txnRollback t1).committed,
        [TxEvent.txBegin, TxEvent.txRollback])
  | BodyOutcome.sysExit code =>
      -- caught: `if e.code: transaction.rollback()`; `saved_exit = e`;
      -- the with-block then exits cleanly (commit), and only afterwards
      -- `raise saved_exit` runs.
      if truthyCode code then
        (AtomicResult.exited code, txnCommit (txnRollback t1),
          [TxEvent.txBegin, TxEvent.txRollback, TxEvent.txCommit, TxEvent.reraise])
      else
        (AtomicResult.exited code, txnCommit t1,
          [TxEvent.txBegin, TxEvent.txCommit, TxEvent.reraise])

/-- **C1.** If the body wrapped by `atomic` raises `SystemExit`, then:
with a non-zero exit code the open transaction is rolled back (the
database keeps its pre-transaction state); with a zero/falsy code the
pending writes are committed; and in both cases the same exit signal is
re-raised to the caller only after the transaction has resolved — in the
event trace the `reraise` is the last event, strictly after the final
commit/rollback. -/
theorem atomic_sysexit_commit_rollback_then_reraise
    {σ ρ : Type} (writes : σ → σ) (code : Option Int) (db : σ) :
    (atomic_wrapper (ρ := ρ)
        (fun s => (writes s, BodyOutcome.sysExit code)) db).1
        = AtomicResult.exited code
      ∧ (atomic_wrapper (ρ := ρ)
          (fun s => (writes s, BodyOutcome.sysExit code)) db).2.1
        = (if truthyCode code then db else writes db)
      ∧ (atomic_wrapper (ρ := ρ)
          (fun s => (writes s, BodyOutcome.sysExit code)) db).2.2
        = (if truthyCode code then
            [TxEvent.txBegin, TxEvent.txRollback, TxEvent.txCommit, TxEvent.reraise]
          else [TxEvent.txBegin, TxEvent.txCommit, TxEvent.reraise])
      ∧ (atomic_wrapper (ρ := ρ)
          (fun s => (writes s, BodyOutcome.sysExit code)) db).2.2.getLast?
        = some TxEvent.reraise := by
  by_cases h : truthyCode code = true
  · simp [atomic_wrapper, txnBegin, txnRollback, txnCommit, h, List.getLast?]
  · simp [atomic_wrapper, txnBegin, txnRollback, txnCommit, h, List.getLast?]

-- =====================================================================
-- Connectors (`connectdb.py`)
-- =====================================================================

/-- A constructed connector object.  `mysql` records the `__init__`
arguments stored by `MySQLConnector` (connectdb.py lines 408-429);
`sqlite` records the final `_db` string stored by `SqliteConnector`
(lines 556-563).  Equality of values models object identity for the
purposes of "the same cached connector". -/
inductive Connector where
  | sqlite (db : String)
  | mysql (db user passwd host : String) (port : Int)
      (tunnel_host tunnel_user tunnel_identity : Option String)
  deriving Repr, DecidableEq

/-- Whether the first character list is an initial segment of the second. -/
def startsWithL : List Char → List Char → Bool
  | [], _ => true
  | _ :: _, [] => false
  | a :: as, b :: bs => a == b && startsWithL as bs

/-- Whether `pat` occurs as a contiguous run inside the second list. -/
def containsL (pat : List Char) : List Char → Bool
  | [] => startsWithL pat []
  | c :: rest => startsWithL pat (c :: rest) || containsL pat rest

/-- Python's `s.startswith(pre)`. -/
def pyStartswith (s pre : String) : Bool :=
  startsWithL pre.data s.data

/-- Python's `"chimedbrc" in path` substring test, used to reject bad
`CHIMEDB_TEST_RC` values. -/
def containsSub (s pat : String) : Bool :=
  containsL pat.data s.data

/-- `SqliteConnector.__init__` (connectdb.py lines 556-563): a read-only
connector for a non-URI path gets wrapped into a `mode=ro` URI, otherwise
the string is stored as given. -/
def SqliteConnector (db : String) (read_write : Bool := true) : Connector :=
  if !read_write && !(pyStartswith db "file:") then
    Connector.sqlite ("file:" ++ db ++ "?mode=ro")
  else
    Connector.sqlite db

/-- The `chimedb` section of a parsed RC file, as the dictionary handed to
`BaseConnector.from_dict`.  `none` means the key is absent from the
dictionary (so that reading it raises `KeyError`); for the tunnel fields,
after the defaulting step `none` also stands for Python `None`. -/
structure DBDict where
  db_type : Option String := none
  db : Option String := none
  user_ro : Option String := none
  passwd_ro : Option String := none
  user_rw : Option String := none
  passwd_rw : Option String := none
  host : Option String := none
  port : Option String := none
  tunnel_host : Option String := none
  tunnel_user : Option String := none
  tunnel_identity : Option String := none
  deriving Repr, DecidableEq

/-- Python truthiness of `d["tunnel_identity"]` after defaulting: `None`
and the empty string are falsy. -/
def truthyStr (s : Option String) : Bool :=
  match s with
  | none => false
  | some v => v != ""

/-- Python's `str.lower()` (for the ASCII strings involved here). -/
def pyLower (s : String) : String :=
  ⟨s.data.map Char.toLower⟩

/-- Accumulate decimal digits; any non-digit makes the parse fail. -/
def digitsToNat : List Char → Nat → Option Nat
  | [], acc => some acc
  | c :: cs, acc =>
      if c.isDigit then digitsToNat cs (acc * 10 + (c.toNat - 48)) else none

/-- Python's `int(str)` on a decimal literal with an optional minus sign
(`none` models the `ValueError` raised on anything unparseable). -/
def pyInt? (s : String) : Option Int :=
  match s.data with
  | [] => none
  | '-' :: rest =>
      match rest with
      | [] => none
      | _ => (digitsToNat rest 0).map (fun n => -(n : Int))
  | cs => (digitsToNat cs 0).map (fun n => (n : Int))

/-- `BaseConnector.from_dict` (connectdb.py lines 313-379).

`expanduser` is `os.path.expanduser`, passed in as a parameter.  Note the
source line 348 reads ``d["tunnel_identity"] == os.path.expanduser(...)``:
a comparison (``==``), not an assignment, whose value is discarded — so
the dictionary entry is never replaced by the expanded path.  The dead
comparison is kept here (`_cmp`, unused) to mirror the source.

Missing required keys surface as `KeyError` for the first key read, in the
source's evaluation order (`db`, `user_ro`, `host`, then `user_rw`); an
unknown `db_type` raises `ValueError`; a non-numeric port raises
`ValueError` from `int()`. -/
def from_dict (expanduser : String → String) (d : DBDict)
    (context : Option String) :
    Except PyErr (List Connector × List Connector × Option String) :=
  let db_type := d.db_type.getD "MySQL"
  if pyLower db_type == "sqlite" then
    match d.db with
    | none => Except.error (PyErr.keyError "db")
    | some db =>
        Except.ok ([SqliteConnector db false], [SqliteConnector db], context)
  else if pyLower db_type == "mysql" then
    -- fill in the defaults for absent keys
    let passwd_ro := d.passwd_ro.getD ""
    let passwd_rw := d.passwd_rw.getD ""
    let port := d.port.getD "3306"
    let tunnel_host := d.tunnel_host
    let tunnel_user := d.tunnel_user
    let tunnel_identity := d.tunnel_identity
    -- source line 347-348: `if d["tunnel_identity"]:
    --     d["tunnel_identity"] == os.path.expanduser(d["tunnel_identity"])`
    -- — an equality test whose result is discarded; `d` is unchanged.
    let _cmp : Bool :=
      if truthyStr tunnel_identity then
        tunnel_identity == tunnel_identity.map expanduser
      else false
    match d.db with
    | none => Except.error (PyErr.keyError "db")
    | some db =>
    match d.user_ro with
    | none => Except.error (PyErr.keyError "user_ro")
    | some user_ro =>
    match d.host with
    | none => Except.error (PyErr.keyError "host")
    | some host =>
    match pyInt? port with
    | none => Except.error (PyErr.valueError ("invalid literal for int(): " ++ port))
    | some p =>
    match d.user_rw with
    | none => Except.error (PyErr.keyError "user_rw")
    | some user_rw =>
        Except.ok
          ([Connector.mysql db user_ro passwd_ro host p
              tunnel_host tunnel_user tunnel_identity],
           [Connector.mysql db user_rw passwd_rw host p
              tunnel_host tunnel_user tunnel_identity],
           context)
  else
    Except.error (PyErr.valueError
      ("Invalid database type (" ++ db_type ++ ")" ++
        (match context with
         | some c => " in " ++ c
         | none => "")))

-- =====================================================================
-- `_initialize_connections` (connectdb.py lines 634-658)
-- =====================================================================

/-- The exception classes caught by the `except (NoRouteToDatabase,
ConnectionError)` clause in `_initialize_connections`
(`NoRouteToDatabase` is a subclass of chimedb's `ConnectionError`). -/
def caughtByInitialize (e : PyErr) : Bool :=
  match e with
  | PyErr.noRouteToDatabase _ => true
  | PyErr.connectionError _ => true
  | _ => false

/-- `_initialize_connections` (connectdb.py lines 634-658), for one role.

`oracle c` is the outcome of `connector.get_connection()` on connector
`c`.  `slot` is the thread-local slot for the role before the call.  On
success the function returns the updated slot and the list of connectors
on which `get_connection` was attempted, in order; a caught per-candidate
failure is logged and skipped; an exception of any other class propagates
(the slot is then unchanged, since the slot is only written after a
successful attempt).  When every candidate fails, the `for`-`else` branch
only logs a warning and the slot keeps its previous value. -/
def _initialize_connections (oracle : Connector → Except PyErr Unit) :
    List Connector → Option Connector →
    Except PyErr (Option Connector × List Connector)
  | [], slot => Except.ok (slot, [])
  | c :: rest, slot =>
      match oracle c with
      | Except.ok _ => Except.ok (some c, [c])
      | Except.error e =>
          if caughtByInitialize e then
            match _initialize_connections oracle rest slot with
            | Except.ok (s, att) => Except.ok (s, c :: att)
            | Except.error e2 => Except.error e2
          else
            Except.error e

/-- Whether `get_connection` succeeds on connector `c` under `oracle`. -/
def connSucceeds (oracle : Connector → Except PyErr Unit) (c : Connector) : Bool :=
  match oracle c with
  | Except.ok _ => true
  | Except.error _ => false

/-- **C3.** For one role, the broker tries candidate connectors strictly
in list order: every candidate failing with `NoRouteToDatabase` /
`ConnectionError` is skipped and never surfaced to the caller; the first
candidate whose `get_connection` succeeds is cached in the slot and no
later candidate is attempted.  Formally, when every failure is of a
caught class, the call returns normally; the new slot holds the first
succeeding candidate (keeping the old slot value if none succeeds); and
the attempted candidates are exactly the failing prefix followed by the
first success. -/
theorem initialize_connections_first_success_in_order
    (oracle : Connector → Except PyErr Unit) (l : List Connector)
    (slot : Option Connector)
    (h : ∀ c ∈ l, ∀ e, oracle c = Except.error e → caughtByInitialize e = true) :
    _initialize_connections oracle l slot =
      Except.ok ((l.find? (connSucceeds oracle)).or slot,
        l.takeWhile (fun c => !connSucceeds oracle c)
          ++ (l.find? (connSucceeds oracle)).toList) := by
  induction l with
  | nil => simp [_initialize_connections]
  | cons c rest ih =>
      have hc := h c (by simp)
      have hrest : ∀ c ∈ rest, ∀ e, oracle c = Except.error e →
          caughtByInitialize e = true := by
        intro x hx e he
        exact h x (by simp [hx]) e he
      cases ho : oracle c with
      | ok u =>
          simp [_initialize_connections, ho, connSucceeds, Option.or]
      | error e =>
          have hcaught := hc e ho
          simp [_initialize_connections, ho, hcaught, ih hrest,
            connSucceeds, Option.or]

/-- Witness for C3, the spec's concrete scenario: two candidates where the
first always fails (`NoRouteToDatabase`) and the second always succeeds —
`_initialize_connections` returns normally with the second candidate
cached, having attempted both in order. -/
theorem initialize_connections_first_success_in_order_witness :
    let c1 := Connector.sqlite "dead"
    let c2 := Connector.sqlite "live"
    let oracle : Connector → Except PyErr Unit := fun c =>
      if c = Connector.sqlite "dead" then
        Except.error (PyErr.noRouteToDatabase "no route")
      else Except.ok ()
    _initialize_connections oracle [c1, c2] none =
      Except.ok (some c2, [c1, c2]) := by
  have h := initialize_connections_first_success_in_order
    (fun c => if c = Connector.sqlite "dead" then
        Except.error (PyErr.noRouteToDatabase "no route")
      else Except.ok ())
    [Connector.sqlite "dead", Connector.sqlite "live"] none
    (by
      intro c hc e he
      simp only [List.mem_cons, List.not_mem_nil, or_false] at hc
      rcases hc with rfl | rfl <;> simp_all [caughtByInitialize] <;>
        subst he <;> rfl)
  simpa using h

-- =====================================================================
-- RC-file resolution (`_try_rc_files`, connectdb.py lines 669-711)
-- =====================================================================

/-- What opening and parsing one RC-file path yields:

* `absent` — `open` raises `IOError` (file missing/unreadable), which the
  source catches and passes over;
* `yamlInvalid` — `yaml.safe_load` raises `yaml.YAMLError` (unparseable
  content), which nothing in the source catches;
* `parsed none` — `safe_load` returns `None` (empty file);
* `parsed (some rc)` — `safe_load` returns the mapping `rc`. -/
inductive FileState where
  | absent
  | yamlInvalid
  | parsed (rc : Option (Option DBDict))
  deriving Repr, DecidableEq

/-- In `parsed (some rc)`, `rc` is represented by its `"chimedb"` section
only (`none` = no such top-level key); other sections are irrelevant to
the source code. -/
def FileState.chimedbSection : FileState → Option (Option DBDict)
  | FileState.parsed rc => rc
  | _ => none

/-- The value returned from the loop of `_try_rc_files`: either the
connector triple built by `from_dict`, or the *initial* `conn = dict()`
(see below) which is "not None" yet falsy to the caller. -/
inductive RCData where
  | connTriple (ro rw : List Connector) (context : Option String)
  | emptyDict
  deriving Repr, DecidableEq

/-- Python truthiness of the value `connect` receives from
`_try_rc_files`: `None` and the empty dict are falsy, the triple truthy. -/
def rcTruthy : Option RCData → Bool
  | some (RCData.connTriple _ _ _) => true
  | some RCData.emptyDict => false
  | none => false

/-- `_have_envvar` (connectdb.py lines 661-666): defined and non-empty. -/
def _have_envvar (v : Option String) : Bool :=
  match v with
  | some s => s != ""
  | none => false

/-- The loop body of `_try_rc_files` (connectdb.py lines 689-711) over the
effective RC-file list.  `fs` maps a path to its `FileState`.

In the source, `conn` is initialised to `dict()` *before* the loop, so for
the first file that opens and parses to a non-`None` mapping the test
`if conn is not None: return conn` always fires: with a `"chimedb"`
section the `from_dict` triple is returned (or `from_dict`'s exception
propagates); without one the still-initial empty dict is returned.  Files
that are absent (`IOError`) or parse to `None` are skipped; unparseable
files raise `yaml.YAMLError`, which propagates.  If the list is
exhausted, `None` is returned. -/
def tryRCLoop (expanduser : String → String) (fs : String → FileState) :
    List String → Except PyErr (Option RCData)
  | [] => Except.ok none
  | f :: rest =>
      match fs f with
      | FileState.absent => tryRCLoop expanduser fs rest
      | FileState.yamlInvalid => Except.error PyErr.yamlError
      | FileState.parsed none => tryRCLoop expanduser fs rest
      | FileState.parsed (some rc) =>
          match rc with
          | some d =>
              match from_dict expanduser d (some f) with
              | Except.error e => Except.error e
              | Except.ok (ro, rw, ctx) =>
                  Except.ok (some (RCData.connTriple ro rw ctx))
          | none => Except.ok (some RCData.emptyDict)

/-- The process environment and the external world, as consulted by
`connect` / `_try_rc_files`.  Each environment variable is `none` when
unset; `fs` is the filesystem; `chimedb_config` is the importable
`chimedb.config` module (its `connectors` / `connectors_rw` lists), or
`none` when the import fails. -/
structure Env where
  chimedb_sqlite : Option String := none
  chimedbrc : Option String := none
  chimedb_test_sqlite : Option String := none
  chimedb_test_rc : Option String := none
  chimedb_test_enable : Option String := none
  fs : String → FileState := fun _ => FileState.absent
  chimedb_config : Option (List Connector × List Connector) := none

/-- The default RC-file list `_RC_FILES` (connectdb.py lines 182-186):
`os.path.join(os.curdir, ".chimedbrc")`, the same in the user's home
directory, and the fixed system path. -/
def defaultRCFiles (home : String) : List String :=
  ["./.chimedbrc", home ++ "/.chimedbrc", "/etc/chime/chimedbrc"]

/-- `_try_rc_files` (connectdb.py lines 669-711).  `rcFilesBase` is the
current value of the module-global `_RC_FILES` (the default list of a
fresh process).  In test mode only `CHIMEDB_TEST_RC` is consulted, and a
value containing the substring `"chimedbrc"` raises `OSError`; otherwise
`CHIMEDBRC`, when set, is prepended to the default list. -/
def _try_rc_files (expanduser : String → String) (env : Env)
    (testEnable : Bool) (rcFilesBase : List String) :
    Except PyErr (Option RCData) :=
  if testEnable then
    if _have_envvar env.chimedb_test_rc then
      let f := env.chimedb_test_rc.getD ""
      if containsSub f "chimedbrc" then
        Except.error (PyErr.osError
          "Bad value for CHIMEDB_TEST_RC: cannot contain \x22chimedbrc\x22")
      else
        tryRCLoop expanduser env.fs [f]
    else
      tryRCLoop expanduser env.fs []
  else
    if _have_envvar env.chimedbrc then
      tryRCLoop expanduser env.fs (env.chimedbrc.getD "" :: rcFilesBase)
    else
      tryRCLoop expanduser env.fs rcFilesBase

-- =====================================================================
-- `connect` (connectdb.py lines 714-789) and `close` (lines 791-800)
-- =====================================================================

/-- The per-thread connector slots (`_threadlocal.current_connector` and
`_threadlocal.current_connector_RW`). -/
structure ThreadState where
  current_connector : Option Connector := none
  current_connector_RW : Option Connector := none
  deriving Repr, DecidableEq

/-- How a call to `connect` terminates. -/
inductive ConnectOutcome where
  /-- early `return` because `connect_this_rank()` is false. -/
  | earlyNoRank
  /-- early `return` at "Connection already exists." -/
  | earlyExisting
  /-- normal return after establishing connections. -/
  | ok
  /-- an exception propagates. -/
  | raised (e : PyErr)
  deriving Repr, DecidableEq

/-- The observable result of one `connect` call. -/
structure ConnectResult where
  outcome : ConnectOutcome
  /-- the thread-local slots after the call. -/
  state : ThreadState
  /-- the global `_TEST_ENABLE` after the call. -/
  testEnable : Bool
  /-- whether configuration-source probing was reached at all. -/
  resolved : Bool
  /-- the `(connectors, connectors_rw, context)` produced by configuration
  resolution, when resolution ran and returned. -/
  resolvedConnectors : Option (List Connector × List Connector × Option String) := none
  deriving Repr, DecidableEq

/-- The configuration-source probing of `connect` (connectdb.py lines
745-775): `CHIMEDB_TEST_SQLITE`/`CHIMEDB_SQLITE` first, then the RC
files, then — in test mode — the shared in-memory store, else the
`chimedb.config` module, raising `NoRouteToDatabase` when nothing is
found. -/
def connect_resolve (expanduser : String → String) (env : Env)
    (testEnable : Bool) (rcFilesBase : List String) :
    Except PyErr (List Connector × List Connector × Option String) :=
  let sqliteVar := if testEnable then env.chimedb_test_sqlite
                   else env.chimedb_sqlite
  if _have_envvar sqliteVar then
    let v := sqliteVar.getD ""
    Except.ok ([SqliteConnector v false], [SqliteConnector v],
      some (if testEnable then "CHIMEDB_TEST_SQLITE" else "CHIMEDB_SQLITE"))
  else
    match _try_rc_files expanduser env testEnable rcFilesBase with
    | Except.error e => Except.error e
    | Except.ok rcData =>
        match rcData with
        | some (RCData.connTriple ro rw ctx) => Except.ok (ro, rw, ctx)
        | _ =>
            -- `rc_data` falsy (`None` or the empty dict)
            if testEnable then
              Except.ok
                ([SqliteConnector "file::memory:?cache=shared&mode=ro"],
                 [SqliteConnector "file::memory:?cache=shared"],
                 some "_TEST_ENABLE")
            else
              match env.chimedb_config with
              | none => Except.error (PyErr.noRouteToDatabase
                  "Unable to find connection configuration for the database!")
              | some (cs, csrw) =>
                  Except.ok (cs, csrw, some "chimedb.config")

/-- The tail of `connect` (connectdb.py lines 777-789): initialise the two
roles with the resolved candidate lists, then raise `ConnectionError` if
either thread-local slot is still empty. -/
def connect_finish (oracle : Connector → Except PyErr Unit)
    (testEnable : Bool) (ts : ThreadState)
    (data : List Connector × List Connector × Option String) : ConnectResult :=
  match _initialize_connections oracle data.1 ts.current_connector with
  | Except.error e =>
      { outcome := ConnectOutcome.raised e, state := ts,
        testEnable := testEnable, resolved := true,
        resolvedConnectors := some data }
  | Except.ok (roSlot, _) =>
      match _initialize_connections oracle data.2.1 ts.current_connector_RW with
      | Except.error e =>
          { outcome := ConnectOutcome.raised e,
            state := { current_connector := roSlot,
                       current_connector_RW := ts.current_connector_RW },
            testEnable := testEnable, resolved := true,
            resolvedConnectors := some data }
      | Except.ok (rwSlot, _) =>
          if roSlot.isNone || rwSlot.isNone then
            { outcome := ConnectOutcome.raised (PyErr.connectionError
                "Connection data found, but no connection could be established."),
              state := { current_connector := roSlot,
                         current_connector_RW := rwSlot },
              testEnable := testEnable, resolved := true,
              resolvedConnectors := some data }
          else
            { outcome := ConnectOutcome.ok,
              state := { current_connector := roSlot,
                         current_connector_RW := rwSlot },
              testEnable := testEnable, resolved := true,
              resolvedConnectors := some data }

/-- `connect` (connectdb.py lines 714-789).

Parameters beyond the source's `reconnect`: `oracle` gives the outcome of
`get_connection` per connector; `expanduser` is `os.path.expanduser`;
`env` the environment; `rankOK` the value of `connect_this_rank()`;
`testEnable0` the global `_TEST_ENABLE` before the call; `rcFilesBase`
the module-global `_RC_FILES`; `ts` the thread-local slots.

Flow, as in the source: rank gate; early return if (without `reconnect`)
*either* slot already holds a connector; honour `CHIMEDB_TEST_ENABLE`;
resolve configuration (`connect_resolve`); initialise both roles and
check the slots (`connect_finish`). -/
def connect (oracle : Connector → Except PyErr Unit)
    (expanduser : String → String) (env : Env) (rankOK : Bool)
    (testEnable0 : Bool) (rcFilesBase : List String) (ts : ThreadState)
    (reconnect : Bool) : ConnectResult :=
  if !rankOK then
    { outcome := ConnectOutcome.earlyNoRank, state := ts,
      testEnable := testEnable0, resolved := false }
  else if !reconnect &&
      (ts.current_connector.isSome || ts.current_connector_RW.isSome) then
    { outcome := ConnectOutcome.earlyExisting, state := ts,
      testEnable := testEnable0, resolved := false }
  else
    let testEnable := testEnable0 || _have_envvar env.chimedb_test_enable
    match connect_resolve expanduser env testEnable rcFilesBase with
    | Except.error e =>
        { outcome := ConnectOutcome.raised e, state := ts,
          testEnable := testEnable, resolved := true }
    | Except.ok data => connect_finish oracle testEnable ts data

-- =====================================================================
-- `close` (connectdb.py lines 791-800) and connector `close` methods
-- =====================================================================

/-- A peewee database object, as held in a connector's `_database`
attribute after `get_peewee_database`: whether it has been closed, and
whether a transaction (an `atomic` block) is currently open on it. -/
structure PWDatabase where
  closed : Bool
  in_transaction : Bool
  deriving Repr, DecidableEq

/-- peewee's `Database.close()`: raises `OperationalError("Attempting to
close database while transaction is open.")` when called inside an atomic
block, otherwise closes the connection.  (Modelled from peewee — the
`chimedb` connectors call straight into it.) -/
def pwClose (db : PWDatabase) : Except PyErr PWDatabase :=
  if db.in_transaction then
    Except.error (PyErr.operationalError
      "Attempting to close database while transaction is open.")
  else
    Except.ok { db with closed := true }

/-- The run-time handle state of one live connector: its `_database`
attribute (`none` until `get_peewee_database` was called) and, for MySQL
connectors, whether its ssh tunnel is active.  A sqlite connector is
modelled with `tunnel_active = false` throughout. -/
structure LiveHandle where
  /-- True for a `MySQLConnector`, false for a `SqliteConnector` (their
  `close` methods differ: only the MySQL one checks `is_closed()`). -/
  isMySQL : Bool
  database : Option PWDatabase
  tunnel_active : Bool := false
  deriving Repr, DecidableEq

/-- `MySQLConnector.close` (connectdb.py lines 532-541) /
`SqliteConnector.close` (lines 582-587).

MySQL: `if self._database is not None and not self._database.is_closed():
self._database.close(); self._database = None`, then stop the tunnel if
active.  Sqlite: `if self._database is not None: self._database.close();
self._database = None`.  An exception from `Database.close()` propagates
before any attribute is cleared. -/
def connectorClose (c : LiveHandle) : Except PyErr LiveHandle :=
  if c.isMySQL then
    match c.database with
    | some db =>
        if !db.closed then
          match pwClose db with
          | Except.error e => Except.error e
          | Except.ok _ =>
              Except.ok { c with database := none, tunnel_active := false }
        else
          Except.ok { c with tunnel_active := false }
    | none => Except.ok { c with tunnel_active := false }
  else
    match c.database with
    | some db =>
        match pwClose db with
        | Except.error e => Except.error e
        | Except.ok _ => Except.ok { c with database := none }
    | none => Except.ok c

/-- The thread-local slots, with each cached connector's run-time handle
state. -/
structure HandleState where
  current_connector : Option LiveHandle := none
  current_connector_RW : Option LiveHandle := none
  deriving Repr, DecidableEq

/-- `close` (connectdb.py lines 791-800): close the read-only connector
(if any) and clear its slot, then the same for the read-write connector.
An exception from a connector's `close` propagates immediately, leaving
the slots as they were at that point (the slot is only set to `None`
*after* its `close()` returns). -/
def connectdb_close (st : HandleState) : Option PyErr × HandleState :=
  match st.current_connector with
  | some c =>
      match connectorClose c with
      | Except.error e => (some e, st)
      | Except.ok _ =>
          let st1 : HandleState := { st with current_connector := none }
          match st1.current_connector_RW with
          | some crw =>
              (match connectorClose crw with
               | Except.error e => (some e, st1)
               | Except.ok _ => (none, { st1 with current_connector_RW := none }))
          | none => (none, st1)
  | none =>
      match st.current_connector_RW with
      | some crw =>
          (match connectorClose crw with
           | Except.error e => (some e, st)
           | Except.ok _ => (none, { st with current_connector_RW := none }))
      | none => (none, st)

/-- A connector handle on which an `atomic` transaction is currently in
progress: its peewee database exists, is not closed, and has an open
transaction. -/
def hasOpenTransaction (c : LiveHandle) : Bool :=
  match c.database with
  | some db => !db.closed && db.in_transaction
  | none => false

-- =====================================================================
-- `name_table` query cache (`orm.py` lines 164-263)
-- =====================================================================

/-- Lookup in an association list (a Python `dict`, keyed by strings). -/
def lookupA {β : Type} : List (String × β) → String → Option β
  | [], _ => none
  | (k, b) :: rest, k' => if k = k' then some b else lookupA rest k'

/-- Update/insert in an association list (Python `d[k] = b`). -/
def setA {β : Type} : List (String × β) → String → β → List (String × β)
  | [], k, b => [(k, b)]
  | (k0, b0) :: rest, k, b =>
      if k0 = k then (k0, b) :: rest else (k0, b0) :: setA rest k b

/-- `dict.setdefault(k, d)`: the stored value if present, else `d` —
together with the (possibly extended) dictionary. -/
def setdefaultA {β : Type} (l : List (String × β)) (k : String) (d : β) :
    β × List (String × β) :=
  match lookupA l k with
  | some b => (b, l)
  | none => (d, setA l k d)

/-- The class-level `name_table._query_cache` dictionary: class name →
field name → value → cached row. -/
def QueryCache (Row : Type) : Type :=
  List (String × List (String × List (String × Row)))

/-- `name_table.clear_cache` (orm.py lines 166-169):
`cls._query_cache[cls.__name__] = dict()`. -/
def clear_cache {Row : Type} (cache : QueryCache Row) (clsName : String) :
    QueryCache Row :=
  setA cache clsName []

/-- `name_table.get_query_cache` (orm.py lines 171-200).

`dbget field val` is `cls.get(**{field: val})`: it returns the matching
row or raises (peewee raises `cls.DoesNotExist` on zero rows).  `val` is
`Option String` so the `if val is None: return None` short-circuit is
expressible.  The result is `(outcome, cache', number of database queries
issued)`.  A `val` of `None` returns `None` before touching the cache; a
cache hit issues no query; a miss issues one query and stores the row
only when the query returns one (an exception from `cls.get` propagates
before the assignment `column_cache[val] = ...`, so nothing is cached —
though the `setdefault` calls have already ensured the empty sub-dicts
exist). -/
def get_query_cache {Row : Type} (dbget : String → String → Except PyErr Row)
    (clsName : String) (cache : QueryCache Row) (field : String)
    (val : Option String) :
    Except PyErr (Option Row) × QueryCache Row × Nat :=
  match val with
  | none => (Except.ok none, cache, 0)
  | some v =>
      let (class_cache, cache1) := setdefaultA cache clsName []
      let (column_cache, class_cache1) := setdefaultA class_cache field []
      let cache2 := setA cache1 clsName class_cache1
      match lookupA column_cache v with
      | some row => (Except.ok (some row), cache2, 0)
      | none =>
          match dbget field v with
          | Except.error e => (Except.error e, cache2, 1)
          | Except.ok row =>
              (Except.ok (some row),
               setA cache2 clsName (setA class_cache1 field (setA column_cache v row)),
               1)

/-- The row cached for `(clsName, field, v)`, if any. -/
def cachedRow {Row : Type} (cache : QueryCache Row) (clsName field v : String) :
    Option Row :=
  match lookupA cache clsName with
  | none => none
  | some class_cache =>
      match lookupA class_cache field with
      | none => none
      | some column_cache => lookupA column_cache v

-- =====================================================================
-- Association-list (Python dict) helper lemmas
-- =====================================================================

theorem lookupA_setA_self {β : Type} (l : List (String × β)) (k : String)
    (b : β) : lookupA (setA l k b) k = some b := by
  induction l with
  | nil => simp [setA, lookupA]
  | cons hd tl ih =>
      obtain ⟨k0, b0⟩ := hd
      by_cases h : k0 = k
      · simp [setA, h, lookupA]
      · simp [setA, h, lookupA, ih]

theorem setA_of_lookupA {β : Type} (l : List (String × β)) (k : String)
    (b : β) (h : lookupA l k = some b) : setA l k b = l := by
  induction l with
  | nil => simp [lookupA] at h
  | cons hd tl ih =>
      obtain ⟨k0, b0⟩ := hd
      by_cases hk : k0 = k
      · simp [lookupA, hk] at h
        simp [setA, hk, h]
      · simp [lookupA, hk] at h
        simp [setA, hk, ih h]

/-- The cached row consulted by `get_query_cache` is exactly what the two
`setdefault` steps expose. -/
theorem cachedRow_as_setdefaults {Row : Type} (cache : QueryCache Row)
    (clsName field v : String) :
    cachedRow cache clsName field v =
      lookupA (setdefaultA (setdefaultA cache clsName []).1 field []).1 v := by
  unfold cachedRow setdefaultA
  cases hc : lookupA cache clsName with
  | none => simp [lookupA]
  | some cc =>
      cases hf : lookupA cc field with
      | none => simp [hf, lookupA]
      | some col => simp [hf]

/-- After the `setdefault` bookkeeping of a lookup, the cache seen by a
subsequent lookup exposes the same column dictionary. -/
theorem setdefaults_restore {Row : Type} (cache : QueryCache Row)
    (clsName field : String) :
    lookupA
        (setdefaultA (setdefaultA cache clsName
          ([] : List (String × List (String × Row)))).1 field []).2 field
      = some (setdefaultA (setdefaultA cache clsName
          ([] : List (String × List (String × Row)))).1 field []).1 := by
  unfold setdefaultA
  cases hc : lookupA cache clsName with
  | none =>
      simp
      cases hf : lookupA ([] : List (String × List (String × Row))) field with
      | none => simp [hf, lookupA_setA_self]
      | some col => simp [lookupA] at hf
  | some cc =>
      simp
      cases hf : lookupA cc field with
      | none => simp [hf, lookupA_setA_self]
      | some col => simp [hf]

-- =====================================================================
-- C7 / C8: the query cache
-- =====================================================================

/-- **C7.** `get_query_cache(field, val)` returns `None` with no database
query when `val` is `None`; a repeated lookup of a value whose row was
cached by a first lookup returns the cached row and issues no new query
(so the same value looked up twice issues exactly one query in total, and
the second lookup leaves the cache unchanged); and after `clear_cache()`
the same lookup queries the database again. -/
theorem get_query_cache_memoizes {Row : Type}
    (dbget : String → String → Except PyErr Row)
    (clsName field v : String) (row : Row) (cache : QueryCache Row)
    (hq : dbget field v = Except.ok row)
    (hmiss : cachedRow cache clsName field v = none) :
    (get_query_cache dbget clsName cache field none = (Except.ok none, cache, 0))
    ∧ (let r1 := get_query_cache dbget clsName cache field (some v)
       let r2 := get_query_cache dbget clsName r1.2.1 field (some v)
       let r3 := get_query_cache dbget clsName (clear_cache r1.2.1 clsName)
         field (some v)
       r1.1 = Except.ok (some row) ∧ r1.2.2 = 1
         ∧ r2.1 = Except.ok (some row) ∧ r2.2.2 = 0 ∧ r2.2.1 = r1.2.1
         ∧ r3.1 = Except.ok (some row) ∧ r3.2.2 = 1) := by
  have hdecomp := cachedRow_as_setdefaults cache clsName field v
  rw [hmiss] at hdecomp
  refine ⟨rfl, ?_⟩
  simp only [get_query_cache]
  -- name the intermediate dictionaries of the first lookup
  set cc := (setdefaultA cache clsName ([] : List (String × List (String × Row)))).1 with hcc
  set c1 := (setdefaultA cache clsName ([] : List (String × List (String × Row)))).2 with hc1
  set col := (setdefaultA cc field ([] : List (String × Row))).1 with hcol
  set cc1 := (setdefaultA cc field ([] : List (String × Row))).2 with hcc1
  have hcolv : lookupA col v = none := hdecomp.symm
  -- first lookup: miss, query, store
  simp only [← hcc, ← hc1, ← hcol, ← hcc1, hcolv, hq]
  -- the cache produced by the first lookup
  set C1 : QueryCache Row :=
    setA (setA c1 clsName cc1) clsName (setA cc1 field (setA col v row)) with hC1
  -- second lookup on C1: everything is found
  have h1 : lookupA C1 clsName = some (setA cc1 field (setA col v row)) :=
    lookupA_setA_self _ _ _
  have h2 : lookupA (setA cc1 field (setA col v row)) field
      = some (setA col v row) := lookupA_setA_self _ _ _
  have h3 : lookupA (setA col v row) v = some row := lookupA_setA_self _ _ _
  have h4 : setA C1 clsName (setA cc1 field (setA col v row)) = C1 :=
    setA_of_lookupA _ _ _ h1
  -- lookup after clear_cache: the class dictionary is empty again
  have h5 : lookupA (clear_cache C1 clsName) clsName
      = some ([] : List (String × List (String × Row))) := by
    unfold clear_cache
    exact lookupA_setA_self _ _ _
  simp only [setdefaultA, h1, h2, h3, h4, h5, hq, lookupA]
  simp

/-- Witness for C7 at a concrete table: a `None` value returns `None`
having issued no query and left the cache untouched. -/
theorem get_query_cache_memoizes_witness :
    get_query_cache (fun _ _ => Except.ok (42 : Nat)) "Tab"
        ([] : QueryCache Nat) "name" none
      = (Except.ok none, [], 0) :=
  (get_query_cache_memoizes (fun _ _ => Except.ok (42 : Nat)) "Tab" "name" "x"
    42 [] rfl rfl).1

/-- Whether an outcome is a raised `chimedb.core.exceptions.NotFoundError`. -/
def raisesNotFoundError {α : Type} (r : Except PyErr α) : Bool :=
  match r with
  | Except.error (PyErr.notFoundError _) => true
  | _ => false

/-- Counterexample to C8 as stated: on a query matching zero rows
(`cls.get` raises peewee's `Model.DoesNotExist`, which `get_query_cache`
does not convert), the lookup fails with `DoesNotExist` — not with
chimedb's `NotFoundError`. -/
theorem get_query_cache_zero_rows_counterexample :
    (get_query_cache (fun _ _ => Except.error PyErr.doesNotExist) "Tab"
        ([] : QueryCache Nat) "name" (some "missing")).1
      = Except.error PyErr.doesNotExist
    ∧ raisesNotFoundError
        (get_query_cache (fun _ _ => Except.error PyErr.doesNotExist) "Tab"
          ([] : QueryCache Nat) "name" (some "missing")).1 = false := by
  constructor
  · rfl
  · rfl

/-- **C8 (amended).** A `get_query_cache` lookup whose query matches zero
rows fails with the ORM's `DoesNotExist` exception (peewee's, raised by
`cls.get` and not converted to chimedb's `NotFoundError`) and stores no
row in the cache, so every repeated lookup of a truly-absent value issues
a fresh database query rather than returning a cached absence. -/
theorem get_query_cache_zero_rows_not_cached {Row : Type}
    (dbget : String → String → Except PyErr Row)
    (clsName field v : String) (cache : QueryCache Row)
    (hq : dbget field v = Except.error PyErr.doesNotExist)
    (hmiss : cachedRow cache clsName field v = none) :
    let r1 := get_query_cache dbget clsName cache field (some v)
    let r2 := get_query_cache dbget clsName r1.2.1 field (some v)
    r1.1 = Except.error PyErr.doesNotExist ∧ r1.2.2 = 1
      ∧ cachedRow r1.2.1 clsName field v = none
      ∧ r2.1 = Except.error PyErr.doesNotExist ∧ r2.2.2 = 1 := by
  have hdecomp := cachedRow_as_setdefaults cache clsName field v
  rw [hmiss] at hdecomp
  have hrestore := setdefaults_restore cache clsName field
  simp only [get_query_cache]
  set cc := (setdefaultA cache clsName ([] : List (String × List (String × Row)))).1 with hcc
  set c1 := (setdefaultA cache clsName ([] : List (String × List (String × Row)))).2 with hc1
  set col := (setdefaultA cc field ([] : List (String × Row))).1 with hcol
  set cc1 := (setdefaultA cc field ([] : List (String × Row))).2 with hcc1
  have hcolv : lookupA col v = none := hdecomp.symm
  -- the cache left behind by the failed first lookup
  set C1 : QueryCache Row := setA c1 clsName cc1 with hC1
  have h1 : lookupA C1 clsName = some cc1 := lookupA_setA_self _ _ _
  have h4 : setA C1 clsName cc1 = C1 := setA_of_lookupA _ _ _ h1
  have hrow : cachedRow C1 clsName field v = none := by
    unfold cachedRow
    simp [h1, hrestore, hcolv]
  simp only [setdefaultA, hcolv, hq, h1, hrestore, h4]
  simp [hrow, hcolv, hq]

/-- Witness for C8: a concrete absent value — the repeated lookup issues a
fresh query (one on the second call too). -/
theorem get_query_cache_zero_rows_not_cached_witness :
    (get_query_cache (fun _ _ => Except.error PyErr.doesNotExist) "Tab"
        ([] : QueryCache Nat) "name" (some "absent")).2.2 = 1 := by
  have h := get_query_cache_zero_rows_not_cached
    (fun _ _ => Except.error PyErr.doesNotExist) "Tab" "name" "absent"
    ([] : QueryCache Nat) rfl rfl
  exact h.2.1

-- =====================================================================
-- C9: `close` while an `atomic` transaction is open
-- =====================================================================

/-- A connector's `close` can only fail with peewee's
`OperationalError`, and it does fail whenever its database has an open
transaction. -/
theorem connectorClose_open_transaction (c : LiveHandle)
    (h : hasOpenTransaction c = true) :
    connectorClose c = Except.error (PyErr.operationalError
      "Attempting to close database while transaction is open.") := by
  unfold hasOpenTransaction at h
  unfold connectorClose pwClose
  cases hdb : c.database with
  | none => rw [hdb] at h; cases h
  | some db =>
      rw [hdb] at h
      simp only [Bool.and_eq_true, Bool.not_eq_true'] at h
      obtain ⟨hclosed, htx⟩ := h
      cases hmy : c.isMySQL <;> simp [hclosed, htx]

/-- `connectorClose` errors are always `OperationalError`. -/
theorem connectorClose_error_is_operational (c : LiveHandle) (e : PyErr)
    (h : connectorClose c = Except.error e) :
    e = PyErr.operationalError
      "Attempting to close database while transaction is open." := by
  unfold connectorClose pwClose at h
  cases hdb : c.database with
  | none =>
      rw [hdb] at h
      cases hmy : c.isMySQL <;> rw [hmy] at h <;> simp at h
  | some db =>
      rw [hdb] at h
      cases hmy : c.isMySQL <;> rw [hmy] at h <;>
        by_cases htx : db.in_transaction = true <;>
          by_cases hcl : db.closed = true <;>
            simp [htx, hcl] at h
      all_goals exact h.symm

/-- **C9.** Calling `close()` while a transaction opened by `atomic` is
still in progress on the same thread fails loudly: `close` propagates
peewee's `OperationalError` ("Attempting to close database while
transaction is open.") instead of returning normally, and when the
transacting connector is the first one closed (the read-only slot), the
slots are left exactly as they were — nothing is silently torn down. -/
theorem close_during_open_transaction_fails (st : HandleState) (c : LiveHandle)
    (h : (st.current_connector = some c ∨ st.current_connector_RW = some c)
          ∧ hasOpenTransaction c = true) :
    (connectdb_close st).1 = some (PyErr.operationalError
        "Attempting to close database while transaction is open.")
      ∧ (st.current_connector = some c → (connectdb_close st).2 = st) := by
  obtain ⟨hslot, htx⟩ := h
  have hc := connectorClose_open_transaction c htx
  rcases hslot with hro | hrw
  · constructor
    · simp [connectdb_close, hro, hc]
    · intro _
      simp [connectdb_close, hro, hc]
  · constructor
    · cases hro : st.current_connector with
      | none => simp [connectdb_close, hro, hrw, hc]
      | some c0 =>
          cases hcc : connectorClose c0 with
          | error e =>
              simp [connectdb_close, hro, hcc,
                connectorClose_error_is_operational c0 e hcc]
          | ok c0' => simp [connectdb_close, hro, hcc, hrw, hc]
    · intro hro
      simp [connectdb_close, hro, hc]

/-- Witness for C9: a read-write sqlite connector whose peewee database
has an open `atomic` transaction — `close()` raises `OperationalError`
and the slots are untouched. -/
theorem close_during_open_transaction_fails_witness :
    (connectdb_close
        { current_connector := some ⟨false, some ⟨false, true⟩, false⟩,
          current_connector_RW := none }).1
      = some (PyErr.operationalError
          "Attempting to close database while transaction is open.") :=
  (close_during_open_transaction_fails
    { current_connector := some ⟨false, some ⟨false, true⟩, false⟩,
      current_connector_RW := none }
    ⟨false, some ⟨false, true⟩, false⟩ ⟨Or.inl rfl, rfl⟩).1

-- =====================================================================
-- C10: `tunnel_identity` is never expanded
-- =====================================================================

/-- **C10.** For every configuration dictionary describing a MySQL
database with a non-null `tunnel_identity` entry, `BaseConnector.from_dict`
passes the `tunnel_identity` string to both constructed `MySQLConnector`s
exactly as given — the result is the same for *every* `expanduser`
function, so a leading `"~"` is never expanded to the user's home
directory before the connector stores it.  (Source line 348 reads
`d["tunnel_identity"] == os.path.expanduser(...)`: `==` compares and
discards; it does not assign.) -/
theorem from_dict_tunnel_identity_verbatim
    (expanduser : String → String) (d : DBDict) (ctx : Option String)
    (db user_ro user_rw host ti : String) (p : Int)
    (hty : pyLower (d.db_type.getD "MySQL") = "mysql")
    (hdb : d.db = some db) (hro : d.user_ro = some user_ro)
    (hrw : d.user_rw = some user_rw) (hhost : d.host = some host)
    (hport : pyInt? (d.port.getD "3306") = some p)
    (hti : d.tunnel_identity = some ti) :
    from_dict expanduser d ctx =
      Except.ok
        ([Connector.mysql db user_ro (d.passwd_ro.getD "") host p
            d.tunnel_host d.tunnel_user (some ti)],
         [Connector.mysql db user_rw (d.passwd_rw.getD "") host p
            d.tunnel_host d.tunnel_user (some ti)],
         ctx) := by
  have hns : (("mysql" : String) == "sqlite") = false := by decide
  have hm : (("mysql" : String) == "mysql") = true := by decide
  simp only [from_dict, hty, hns, hm, Bool.false_eq_true, if_false, if_true,
    hdb, hro, hhost, hport, hrw, hti]

/-- Witness for C10: a dictionary whose `tunnel_identity` starts with
`"~"`, and an `expanduser` that would rewrite it — the stored identity
path still starts with `"~"`. -/
theorem from_dict_tunnel_identity_verbatim_witness :
    from_dict (fun s => "/home/chime" ++ s.drop 1)
        { db_type := some "MySQL", db := some "chimedb",
          user_ro := some "reader", user_rw := some "writer",
          host := some "db.chime", port := some "3306",
          tunnel_host := some "gateway", tunnel_user := some "tunneler",
          tunnel_identity := some "~/.ssh/id_rsa" } (some "rcfile") =
      Except.ok
        ([Connector.mysql "chimedb" "reader" "" "db.chime" 3306
            (some "gateway") (some "tunneler") (some "~/.ssh/id_rsa")],
         [Connector.mysql "chimedb" "writer" "" "db.chime" 3306
            (some "gateway") (some "tunneler") (some "~/.ssh/id_rsa")],
         some "rcfile") := by
  have h := from_dict_tunnel_identity_verbatim
    (fun s => "/home/chime" ++ s.drop 1)
    { db_type := some "MySQL", db := some "chimedb",
      user_ro := some "reader", user_rw := some "writer",
      host := some "db.chime", port := some "3306",
      tunnel_host := some "gateway", tunnel_user := some "tunneler",
      tunnel_identity := some "~/.ssh/id_rsa" } (some "rcfile")
    "chimedb" "reader" "writer" "db.chime" "~/.ssh/id_rsa" 3306
    (by decide) rfl rfl rfl rfl (by decide) rfl
  exact h

-- =====================================================================
-- C2: idempotence / the early-return condition of `connect`
-- =====================================================================

/-- Once `connect` reaches configuration resolution, the result records
it, whatever happens afterwards. -/
theorem connect_finish_resolved (oracle : Connector → Except PyErr Unit)
    (te : Bool) (ts : ThreadState)
    (data : List Connector × List Connector × Option String) :
    (connect_finish oracle te ts data).resolved = true := by
  unfold connect_finish
  split
  · rfl
  · split
    · rfl
    · split <;> rfl

/-- When `connect_finish` returns with outcome `ok`, both thread-local
slots hold a connector. -/
theorem connect_finish_ok_slots (oracle : Connector → Except PyErr Unit)
    (te : Bool) (ts : ThreadState)
    (data : List Connector × List Connector × Option String)
    (h : (connect_finish oracle te ts data).outcome = ConnectOutcome.ok) :
    (connect_finish oracle te ts data).state.current_connector.isSome = true
    ∧ (connect_finish oracle te ts data).state.current_connector_RW.isSome
        = true := by
  unfold connect_finish at h ⊢
  split at h
  · cases h
  · split at h
    · cases h
    · split at h
      · cases h
      · rename_i x1 roSlot att hro x2 rwSlot att2 hrw hcheck
        rw [if_neg hcheck]
        constructor
        · cases roSlot with
          | none => simp at hcheck
          | some c => simp
        · cases rwSlot with
          | none => simp at hcheck
          | some c => simp

/-- Counterexample to C2 as stated: the early-return guard of `connect`
(connectdb.py line 735) tests whether *either* slot holds a connector,
not both.  Concretely: with `CHIMEDB_SQLITE` set, an oracle for which the
read-only connection succeeds but the read-write one fails leaves the
thread with only a read-only connector (the call raises
`ConnectionError`); a second `connect` without `reconnect` then returns
immediately without invoking configuration resolution even though a live
connector does *not* exist for both roles. -/
theorem connect_early_return_counterexample :
    (connect
        (fun c => if c = Connector.sqlite "file:prod.db?mode=ro" then Except.ok ()
                  else Except.error (PyErr.connectionError "connection refused"))
        (fun s => s) { chimedb_sqlite := some "prod.db" } true false
        (defaultRCFiles "/home/user") ⟨none, none⟩ false).state
      = ⟨some (Connector.sqlite "file:prod.db?mode=ro"), none⟩
    ∧ (connect
        (fun c => if c = Connector.sqlite "file:prod.db?mode=ro" then Except.ok ()
                  else Except.error (PyErr.connectionError "connection refused"))
        (fun s => s) { chimedb_sqlite := some "prod.db" } true false
        (defaultRCFiles "/home/user")
        ⟨some (Connector.sqlite "file:prod.db?mode=ro"), none⟩ false)
      = { outcome := ConnectOutcome.earlyExisting,
          state := ⟨some (Connector.sqlite "file:prod.db?mode=ro"), none⟩,
          testEnable := false, resolved := false } := by
  constructor
  · rfl
  · rfl

/-- **C2 (amended).** For a call to `connect` with `reconnect` false on
the designated connecting rank, `connect` returns immediately without
invoking configuration resolution if and only if a live connector already
exists for *at least one* of the two roles (the source tests
`current_connector is not None or current_connector_RW is not None`); in
particular, after a `connect` that returned normally (both slots filled),
calling `connect` again without `reconnect` is a no-op and both cached
connectors are identical to those after the first call. -/
theorem connect_idempotent_early_return_iff_either
    (oracle : Connector → Except PyErr Unit) (expanduser : String → String)
    (env : Env) (testEnable0 : Bool) (rcFilesBase : List String)
    (ts : ThreadState) :
    let r := connect oracle expanduser env true testEnable0 rcFilesBase ts false
    ((ts.current_connector.isSome || ts.current_connector_RW.isSome) = true →
        r.outcome = ConnectOutcome.earlyExisting ∧ r.resolved = false
          ∧ r.state = ts)
    ∧ (r.resolved = false →
        (ts.current_connector.isSome || ts.current_connector_RW.isSome) = true)
    ∧ (r.outcome = ConnectOutcome.ok →
        connect oracle expanduser env true r.testEnable rcFilesBase r.state false
          = { outcome := ConnectOutcome.earlyExisting, state := r.state,
              testEnable := r.testEnable, resolved := false }) := by
  intro r
  by_cases hcond : (ts.current_connector.isSome || ts.current_connector_RW.isSome)
      = true
  · refine ⟨fun _ => ?_, fun _ => hcond, fun hok => ?_⟩
    · have : r = ({ outcome := ConnectOutcome.earlyExisting, state := ts,
                      testEnable := testEnable0, resolved := false } : ConnectResult) := by
        simp only [r, connect, Bool.not_true, Bool.false_eq_true, if_false,
          Bool.not_false, Bool.true_and, hcond, if_true]
      rw [this]
      exact ⟨rfl, rfl, rfl⟩
    · exfalso
      have : r = ({ outcome := ConnectOutcome.earlyExisting, state := ts,
                      testEnable := testEnable0, resolved := false } : ConnectResult) := by
        simp only [r, connect, Bool.not_true, Bool.false_eq_true, if_false,
          Bool.not_false, Bool.true_and, hcond, if_true]
      rw [this] at hok
      cases hok
  · have hr : r = (match connect_resolve expanduser env
        (testEnable0 || _have_envvar env.chimedb_test_enable) rcFilesBase with
      | Except.error e =>
          { outcome := ConnectOutcome.raised e, state := ts,
            testEnable := testEnable0 || _have_envvar env.chimedb_test_enable,
            resolved := true }
      | Except.ok data => connect_finish oracle
          (testEnable0 || _have_envvar env.chimedb_test_enable) ts data) := by
      simp only [r, connect, Bool.not_true, Bool.false_eq_true, if_false,
        Bool.not_false, Bool.true_and, hcond]
    refine ⟨fun h => absurd h (by simp [hcond]), ?_, ?_⟩
    · intro hres
      exfalso
      rw [hr] at hres
      cases hres' : connect_resolve expanduser env
          (testEnable0 || _have_envvar env.chimedb_test_enable) rcFilesBase with
      | error e => rw [hres'] at hres; cases hres
      | ok data =>
          rw [hres'] at hres
          rw [connect_finish_resolved] at hres
          cases hres
    · intro hok
      rw [hr] at hok ⊢
      generalize connect_resolve expanduser env
          (testEnable0 || _have_envvar env.chimedb_test_enable) rcFilesBase = res
        at hok ⊢
      cases res with
      | error e => simp at hok
      | ok data =>
          dsimp only at hok ⊢
          have hslots := connect_finish_ok_slots oracle
            (testEnable0 || _have_envvar env.chimedb_test_enable) ts data hok
          simp only [connect, Bool.not_true, Bool.false_eq_true, if_false,
            Bool.not_false, Bool.true_and, hslots.1, Bool.true_or, if_true]

/-- Witness for C2 (amended): with both slots already populated, `connect`
without `reconnect` leaves the state untouched. -/
theorem connect_idempotent_early_return_iff_either_witness :
    (connect (fun _ => Except.ok ()) (fun s => s) {} true false []
        ⟨some (Connector.sqlite "a.db"), some (Connector.sqlite "b.db")⟩
        false).state
      = ⟨some (Connector.sqlite "a.db"), some (Connector.sqlite "b.db")⟩ := by
  have h := connect_idempotent_early_return_iff_either (fun _ => Except.ok ())
    (fun s => s) {} false []
    ⟨some (Connector.sqlite "a.db"), some (Connector.sqlite "b.db")⟩
  exact (h.1 rfl).2.2

-- =====================================================================
-- C6: `connect` returns normally only with both slots live
-- =====================================================================

/-- When every per-candidate failure is of a caught class,
`_initialize_connections` returns normally. -/
theorem initialize_ok_of_caught (oracle : Connector → Except PyErr Unit)
    (hcaught : ∀ c e, oracle c = Except.error e → caughtByInitialize e = true) :
    ∀ (l : List Connector) (slot : Option Connector),
      ∃ p, _initialize_connections oracle l slot = Except.ok p := by
  intro l
  induction l with
  | nil => intro slot; exact ⟨(slot, []), rfl⟩
  | cons c rest ih =>
      intro slot
      cases ho : oracle c with
      | ok u =>
          exact ⟨(some c, [c]), by simp [_initialize_connections, ho]⟩
      | error e =>
          obtain ⟨p, hp⟩ := ih slot
          exact ⟨(p.1, c :: p.2),
            by simp [_initialize_connections, ho, hcaught c e ho, hp]⟩

/-- If, after both initialisation loops, either slot is empty,
`connect_finish` raises `ConnectionError`. -/
theorem connect_finish_slot_empty_connectionerror
    (oracle : Connector → Except PyErr Unit) (te : Bool) (ts : ThreadState)
    (data : List Connector × List Connector × Option String)
    (hcaught : ∀ c e, oracle c = Except.error e → caughtByInitialize e = true)
    (hempty :
      (connect_finish oracle te ts data).state.current_connector.isNone = true
      ∨ (connect_finish oracle te ts data).state.current_connector_RW.isNone
          = true) :
    (connect_finish oracle te ts data).outcome
      = ConnectOutcome.raised (PyErr.connectionError
          "Connection data found, but no connection could be established.") := by
  obtain ⟨⟨roSlot, att⟩, h1⟩ :=
    initialize_ok_of_caught oracle hcaught data.1 ts.current_connector
  obtain ⟨⟨rwSlot, att2⟩, h2⟩ :=
    initialize_ok_of_caught oracle hcaught data.2.1 ts.current_connector_RW
  unfold connect_finish at hempty ⊢
  rw [h1, h2] at hempty ⊢
  dsimp only at hempty ⊢
  by_cases hc : (roSlot.isNone || rwSlot.isNone) = true
  · rw [if_pos hc]
  · rw [if_neg hc] at hempty ⊢
    exfalso
    simp only [Bool.or_eq_true, not_or, Bool.not_eq_true] at hc
    rcases hempty with h | h
    · rw [hc.1] at h; cases h
    · rw [hc.2] at h; cases h

/-- **C6.** If configuration data was found but, after iterating all
candidate connectors for both roles, either the read-only or the
read-write slot is still empty, `connect` raises `ConnectionError`
("Connection data found, but no connection could be established."); and
`connect` completes the resolution path normally only when both
per-thread slots hold a live connector.  (Per-candidate failures are of
the caught classes `NoRouteToDatabase` / `ConnectionError`, as
`get_connection` guarantees.) -/
theorem connect_both_slots_or_connectionerror
    (oracle : Connector → Except PyErr Unit) (expanduser : String → String)
    (env : Env) (rankOK : Bool) (testEnable0 : Bool)
    (rcFilesBase : List String) (ts : ThreadState) (reconnect : Bool)
    (hcaught : ∀ c e, oracle c = Except.error e → caughtByInitialize e = true) :
    let r := connect oracle expanduser env rankOK testEnable0 rcFilesBase ts
      reconnect
    (r.outcome = ConnectOutcome.ok →
        r.state.current_connector.isSome = true
          ∧ r.state.current_connector_RW.isSome = true)
    ∧ (∀ data, r.resolvedConnectors = some data →
        (r.state.current_connector.isNone = true
          ∨ r.state.current_connector_RW.isNone = true) →
        r.outcome = ConnectOutcome.raised (PyErr.connectionError
          "Connection data found, but no connection could be established.")) := by
  intro r
  cases rankOK with
  | false =>
      have hre : r = ({ outcome := ConnectOutcome.earlyNoRank, state := ts,
                        testEnable := testEnable0, resolved := false }
          : ConnectResult) := by
        simp [r, connect]
      rw [hre]
      exact ⟨(fun h => by cases h), (fun data hd => by cases hd)⟩
  | true =>
      by_cases hcond : (!reconnect &&
          (ts.current_connector.isSome || ts.current_connector_RW.isSome))
            = true
      · have hre : r = ({ outcome := ConnectOutcome.earlyExisting, state := ts,
                          testEnable := testEnable0, resolved := false }
            : ConnectResult) := by
          simp only [r, connect, Bool.not_true, Bool.false_eq_true, if_false,
            hcond, if_true]
        rw [hre]
        exact ⟨(fun h => by cases h), (fun data hd => by cases hd)⟩
      · have hr : r = (match connect_resolve expanduser env
            (testEnable0 || _have_envvar env.chimedb_test_enable) rcFilesBase with
          | Except.error e =>
              { outcome := ConnectOutcome.raised e, state := ts,
                testEnable := testEnable0
                  || _have_envvar env.chimedb_test_enable,
                resolved := true }
          | Except.ok data => connect_finish oracle
              (testEnable0 || _have_envvar env.chimedb_test_enable) ts data) := by
          simp only [r, connect, Bool.not_true, Bool.false_eq_true, if_false,
            hcond]
        rw [hr]
        generalize connect_resolve expanduser env
            (testEnable0 || _have_envvar env.chimedb_test_enable) rcFilesBase
          = res
        cases res with
        | error e =>
            exact ⟨(fun h => by cases h), (fun data hd => by cases hd)⟩
        | ok data' =>
            dsimp only
            refine ⟨fun h => ?_, fun data hd hempty => ?_⟩
            · exact connect_finish_ok_slots oracle
                (testEnable0 || _have_envvar env.chimedb_test_enable) ts data' h
            · exact connect_finish_slot_empty_connectionerror oracle
                (testEnable0 || _have_envvar env.chimedb_test_enable) ts data'
                hcaught hempty

/-- Witness for C6: `CHIMEDB_SQLITE` set and an always-succeeding oracle —
`connect` completes with both slots live. -/
theorem connect_both_slots_or_connectionerror_witness :
    (connect (fun _ => Except.ok ()) (fun s => s)
        { chimedb_sqlite := some "x.db" } true false [] ⟨none, none⟩
        false).state.current_connector.isSome = true := by
  have h := connect_both_slots_or_connectionerror (fun _ => Except.ok ())
    (fun s => s) { chimedb_sqlite := some "x.db" } true false [] ⟨none, none⟩
    false (fun c e he => by cases he)
  exact (h.1 rfl).1

-- =====================================================================
-- C4: a present-but-malformed source is a hard stop
-- =====================================================================

/-- The error classes a malformed configuration source produces:
`yaml.YAMLError` for unparseable content, `KeyError` for missing required
fields, `ValueError` for an invalid database type (or port).  These are
the concrete exceptions behind the spec's abstract `InvalidConfig`. -/
def isConfigMalformation (e : PyErr) : Bool :=
  match e with
  | PyErr.yamlError => true
  | PyErr.keyError _ => true
  | PyErr.valueError _ => true
  | _ => false

/-- A present RC file that is malformed in the sense of C4: its content is
unparseable, or its `chimedb` section makes `from_dict` raise (missing
required fields, or an invalid database type). -/
def malformedSource (expanduser : String → String) (path : String)
    (st : FileState) : Prop :=
  st = FileState.yamlInvalid
  ∨ ∃ d e, st = FileState.parsed (some (some d))
      ∧ from_dict expanduser d (some path) = Except.error e

/-- Every error `from_dict` raises is a `KeyError` or a `ValueError`. -/
theorem from_dict_error_kind (expanduser : String → String) (d : DBDict)
    (ctx : Option String) (e : PyErr)
    (h : from_dict expanduser d ctx = Except.error e) :
    isConfigMalformation e = true := by
  simp only [from_dict] at h
  repeat' split at h
  all_goals first
    | (cases h; rfl)
    | cases h
    | (injection h with h2; subst h2; rfl)

/-- **C4.** During configuration resolution, when an earlier source is
absent and a later source is present but malformed (unparseable content,
missing required fields, or an invalid database type), resolution fails
with a configuration-malformation error (`YAMLError` / `KeyError` /
`ValueError` — the spec's `InvalidConfig`) rather than skipping the
malformed source and silently falling through to the remaining sources in
the precedence list: the failure holds for *every* continuation `rest`. -/
theorem try_rc_files_malformed_is_hard_stop
    (expanduser : String → String) (fs : String → FileState)
    (f1 f2 : String) (rest : List String)
    (h1 : fs f1 = FileState.absent)
    (h2 : malformedSource expanduser f2 (fs f2)) :
    ∃ e, tryRCLoop expanduser fs (f1 :: f2 :: rest) = Except.error e
      ∧ isConfigMalformation e = true := by
  rcases h2 with h2 | ⟨d, e, h2, hfd⟩
  · exact ⟨PyErr.yamlError, by simp [tryRCLoop, h1, h2], rfl⟩
  · exact ⟨e, by simp [tryRCLoop, h1, h2, hfd],
      from_dict_error_kind expanduser d (some f2) e hfd⟩

/-- Witness for C4: the first RC file is absent and the second has a
`chimedb` section requesting a sqlite database but missing the required
`db` field — the loop stops with a `KeyError`, whatever sources follow. -/
theorem try_rc_files_malformed_is_hard_stop_witness :
    ∃ e, tryRCLoop (fun s => s)
        (fun p => if p = "/etc/second.rc" then
            FileState.parsed (some (some { db_type := some "sqlite" }))
          else FileState.absent)
        ["./.chimedbrc", "/etc/second.rc", "/etc/third.rc"] = Except.error e
      ∧ isConfigMalformation e = true := by
  apply try_rc_files_malformed_is_hard_stop
  · rfl
  · exact Or.inr ⟨{ db_type := some "sqlite" }, PyErr.keyError "db", rfl, rfl⟩

-- =====================================================================
-- C5: the test-mode gate is independent of production sources
-- =====================================================================

/-- In test mode, `_try_rc_files` reads the filesystem only at the
(accepted) `CHIMEDB_TEST_RC` path, which — not containing `"chimedbrc"` —
can never be one of the production RC files. -/
theorem try_rc_files_test_noninterference (expanduser : String → String)
    (env1 env2 : Env) (rcFilesBase : List String)
    (hbase : ∀ p ∈ rcFilesBase, containsSub p "chimedbrc" = true)
    (htr : env1.chimedb_test_rc = env2.chimedb_test_rc)
    (hfs : ∀ p, p ∉ rcFilesBase → env1.fs p = env2.fs p) :
    _try_rc_files expanduser env1 true rcFilesBase
      = _try_rc_files expanduser env2 true rcFilesBase := by
  unfold _try_rc_files
  rw [htr]
  by_cases hv : _have_envvar env2.chimedb_test_rc = true
  · simp only [hv, if_true]
    by_cases hcs : containsSub (env2.chimedb_test_rc.getD "") "chimedbrc" = true
    · simp [hcs]
    · have hmem : env2.chimedb_test_rc.getD "" ∉ rcFilesBase := by
        intro hmem
        exact hcs (hbase _ hmem)
      have hf : env1.fs (env2.chimedb_test_rc.getD "")
          = env2.fs (env2.chimedb_test_rc.getD "") := hfs _ hmem
      cases h2 : env2.fs (env2.chimedb_test_rc.getD "") with
      | absent => simp [hcs, tryRCLoop, hf, h2]
      | yamlInvalid => simp [hcs, tryRCLoop, hf, h2]
      | parsed rc => simp [hcs, tryRCLoop, hf, h2]
  · simp [hv, tryRCLoop]

/-- In test mode, `connect_resolve` is a function of the test sources
only. -/
theorem connect_resolve_test_noninterference (expanduser : String → String)
    (env1 env2 : Env) (rcFilesBase : List String)
    (hbase : ∀ p ∈ rcFilesBase, containsSub p "chimedbrc" = true)
    (hts : env1.chimedb_test_sqlite = env2.chimedb_test_sqlite)
    (htr : env1.chimedb_test_rc = env2.chimedb_test_rc)
    (hfs : ∀ p, p ∉ rcFilesBase → env1.fs p = env2.fs p) :
    connect_resolve expanduser env1 true rcFilesBase
      = connect_resolve expanduser env2 true rcFilesBase := by
  unfold connect_resolve
  rw [hts,
    try_rc_files_test_noninterference expanduser env1 env2 rcFilesBase
      hbase htr hfs]
  simp

/-- **C5.** When test mode is enabled (via `test_enable()` or the
`CHIMEDB_TEST_ENABLE` environment variable), the configuration resolved
by `connect` is independent of the production sources: for any two
environments that agree on the test sources (`CHIMEDB_TEST_SQLITE`,
`CHIMEDB_TEST_RC`, `CHIMEDB_TEST_ENABLE`, and the filesystem away from
the production RC files — which all contain the substring `"chimedbrc"`)
but may differ arbitrarily in `CHIMEDB_SQLITE`, `CHIMEDBRC`, the default
RC files, and the `chimedb.config` module, `connect` behaves
identically; and with no test sources present, resolution yields the
ephemeral shared in-memory store, never the production path. -/
theorem connect_test_mode_noninterference
    (oracle : Connector → Except PyErr Unit) (expanduser : String → String)
    (env1 env2 : Env) (rankOK : Bool) (testEnable0 : Bool)
    (rcFilesBase : List String) (ts : ThreadState) (reconnect : Bool)
    (hbase : ∀ p ∈ rcFilesBase, containsSub p "chimedbrc" = true)
    (htest : testEnable0 = true ∨ _have_envvar env1.chimedb_test_enable = true)
    (hts : env1.chimedb_test_sqlite = env2.chimedb_test_sqlite)
    (htr : env1.chimedb_test_rc = env2.chimedb_test_rc)
    (hte : env1.chimedb_test_enable = env2.chimedb_test_enable)
    (hfs : ∀ p, p ∉ rcFilesBase → env1.fs p = env2.fs p) :
    connect oracle expanduser env1 rankOK testEnable0 rcFilesBase ts reconnect
      = connect oracle expanduser env2 rankOK testEnable0 rcFilesBase ts
          reconnect
    ∧ (_have_envvar env1.chimedb_test_sqlite = false →
       _have_envvar env1.chimedb_test_rc = false →
       connect_resolve expanduser env1 true rcFilesBase
         = Except.ok
             ([SqliteConnector "file::memory:?cache=shared&mode=ro"],
              [SqliteConnector "file::memory:?cache=shared"],
              some "_TEST_ENABLE")) := by
  have hte2 : (testEnable0 || _have_envvar env2.chimedb_test_enable) = true := by
    rcases htest with h | h
    · simp [h]
    · rw [hte] at h
      simp [h]
  constructor
  · simp only [connect]
    rw [hte, hte2,
      connect_resolve_test_noninterference expanduser env1 env2 rcFilesBase
        hbase hts htr hfs]
  · intro h1 h2
    simp [connect_resolve, _try_rc_files, tryRCLoop, h1, h2, rcTruthy]

theorem containsL_append_right (pat a b : List Char)
    (h : containsL pat b = true) : containsL pat (a ++ b) = true := by
  induction a with
  | nil => simpa using h
  | cons c cs ih =>
      simp only [List.cons_append, containsL, Bool.or_eq_true]
      exact Or.inr ih

/-- Every production RC file path contains the substring `"chimedbrc"` —
whatever the user's home directory is — so the `CHIMEDB_TEST_RC` filter
("cannot contain `chimedbrc`") keeps the test RC file disjoint from all
of them. -/
theorem defaultRCFiles_contain_chimedbrc (home : String) :
    ∀ p ∈ defaultRCFiles home, containsSub p "chimedbrc" = true := by
  intro p hp
  simp only [defaultRCFiles, List.mem_cons, List.not_mem_nil, or_false] at hp
  rcases hp with rfl | rfl | rfl
  · decide
  · show containsL "chimedbrc".data (home ++ "/.chimedbrc").data = true
    rw [String.data_append]
    exact containsL_append_right _ _ _ (by decide)
  · decide

/-- Witness for C5: production sources set (`CHIMEDB_SQLITE`, `CHIMEDBRC`,
a `chimedb.config` module) versus an environment with none of them — with
test mode enabled through `CHIMEDB_TEST_ENABLE`, `connect` behaves
identically. -/
theorem connect_test_mode_noninterference_witness :
    connect (fun _ => Except.ok ()) (fun s => s)
        { chimedb_sqlite := some "/prod/db.sqlite",
          chimedbrc := some "/prod/chimedb.yaml",
          chimedb_test_enable := some "1",
          chimedb_config := some ([Connector.sqlite "prod"],
            [Connector.sqlite "prod"]) }
        true false (defaultRCFiles "/home/user") ⟨none, none⟩ false
      = connect (fun _ => Except.ok ()) (fun s => s)
          { chimedb_test_enable := some "1" }
          true false (defaultRCFiles "/home/user") ⟨none, none⟩ false := by
  have h := connect_test_mode_noninterference (fun _ => Except.ok ())
    (fun s => s)
    { chimedb_sqlite := some "/prod/db.sqlite",
      chimedbrc := some "/prod/chimedb.yaml",
      chimedb_test_enable := some "1",
      chimedb_config := some ([Connector.sqlite "prod"],
        [Connector.sqlite "prod"]) }
    { chimedb_test_enable := some "1" }
    true false (defaultRCFiles "/home/user") ⟨none, none⟩ false
    (defaultRCFiles_contain_chimedbrc "/home/user") (Or.inr rfl)
    rfl rfl rfl (fun p hp => rfl)
  exact h.1
